import Mathlib

/-!
Shallow embedding of the credit-card payment-eligibility function of this
repository, in its two variants:

* `Base`: the earlier variant (src/unnamed/part_000);
* `Extended`: the later variant
  (src/extensions/cc-payment-eligibility/src/cart_payment_methods_transform_run.js).

Modelling conventions:

* JavaScript objects become structures; a field that the input may omit (or
  set to `null`/`undefined`) becomes an `Option`.
* Attribute values read through `?.value` may be any JSON scalar, so they are
  a `JsVal`; JavaScript strict equality `=== "true"` becomes equality with
  `JsVal.str "true"`.
* Weights are modelled as integers (`Option Int`); only the truthiness of `0`
  and the order against the threshold matter to the code.
* `console.log` calls are discarded, except that evaluating a log argument
  can throw: reading `line.merchandise.__typename` when `merchandise` is
  absent, or `product.id` when `product` is absent, raises a `TypeError`.
  Functions on that path return `Except JsError _`; all other functions are
  total, as every other field access in the source is guarded or optional.
  Log-only fields of a present object (such as a location's display name)
  are omitted, since interpolating `undefined` into a template literal does
  not throw.
-/

/-- A JSON scalar, as a strict-equality domain for attribute values. -/
inductive JsVal where
  | str : String → JsVal
  | num : Int → JsVal
  | boolv : Bool → JsVal
  | nullv : JsVal
deriving DecidableEq, Repr

/-- An attribute/metafield object `{ value: ... }`. -/
structure Metafield where
  value : JsVal
deriving DecidableEq, Repr

/-- A payment method `{ id, name }`; `name` may be absent (and the code also
treats the empty string as falsy). -/
structure PaymentMethod where
  id : String
  name : Option String
deriving DecidableEq, Repr

/-- A customer with the pilot-eligibility attribute. -/
structure Customer where
  ccPilotEligible : Option Metafield
deriving DecidableEq, Repr

/-- A B2B company location with the location-eligibility attribute. -/
structure CompanyLocation where
  ccLocationEligible : Option Metafield
deriving DecidableEq, Repr

/-- A purchasing company (B2B context). -/
structure PurchasingCompany where
  location : Option CompanyLocation
deriving DecidableEq, Repr

/-- A product with the freight-related flags used by the base variant. -/
structure Product where
  id : String
  requiresLtl : Option Metafield
  isParcelEligible : Option Metafield
deriving DecidableEq, Repr

/-- A cart line's merchandise. -/
structure Merchandise where
  __typename : String
  weight : Option Int
  product : Option Product
deriving DecidableEq, Repr

/-- A cart line; `merchandise` is `Option` so that the malformed-line
behaviour (reading a field of `undefined`) is representable. -/
structure CartLine where
  merchandise : Option Merchandise
deriving DecidableEq, Repr

/-- A selected delivery option `{ title, handle }`. -/
structure SelectedDeliveryOption where
  title : Option String
  handle : Option String
deriving DecidableEq, Repr

/-- A delivery group. -/
structure DeliveryGroup where
  selectedDeliveryOption : Option SelectedDeliveryOption
deriving DecidableEq, Repr

/-- The cart part of the input document. -/
structure BuyerIdentity where
  customer : Option Customer
  purchasingCompany : Option PurchasingCompany
deriving DecidableEq, Repr

structure Cart where
  buyerIdentity : Option BuyerIdentity
  lines : Option (List CartLine)
  deliveryGroups : Option (List DeliveryGroup)
deriving DecidableEq, Repr

/-- The whole input document. -/
structure FunctionInput where
  paymentMethods : Option (List PaymentMethod)
  cart : Option Cart
deriving DecidableEq, Repr

/-- One hide operation `{ paymentMethodHide: { paymentMethodId } }`. -/
structure PaymentMethodHide where
  paymentMethodId : String
deriving DecidableEq, Repr

structure Operation where
  paymentMethodHide : PaymentMethodHide
deriving DecidableEq, Repr

/-- The output document `{ operations: [...] }`. -/
structure FunctionResult where
  operations : List Operation
deriving DecidableEq, Repr

/-- A JavaScript `TypeError` raised by reading the named property of
`undefined`. -/
inductive JsError where
  | typeError : String → JsError
deriving DecidableEq, Repr

def NO_CHANGES : FunctionResult := { operations := [] }

/-- The hide result built (inline, four times over) by the main functions. -/
def hideResult (pm : PaymentMethod) : FunctionResult :=
  { operations := [{ paymentMethodHide := { paymentMethodId := pm.id } }] }

-- Hardcoded threshold (identical in both variants)
def PARCEL_WEIGHT_THRESHOLD_LBS : Int := 150

/-- `needle` occurs at the start of the haystack (character lists). -/
def leadsWith : List Char → List Char → Bool
  | [], _ => true
  | _ :: _, [] => false
  | n :: ns, h :: hs => n == h && leadsWith ns hs

/-- `needle` occurs somewhere in the haystack (character lists). -/
def includesAux (needle : List Char) : List Char → Bool
  | [] => leadsWith needle []
  | c :: cs => leadsWith needle (c :: cs) || includesAux needle cs

/-- JavaScript `hay.includes(needle)` on strings. -/
def strIncludes (hay needle : String) : Bool :=
  includesAux needle.data hay.data

/-- JavaScript `s.toLowerCase()`, as a per-character map (the strings the
code compares are ASCII). -/
def strToLower (s : String) : String :=
  String.mk (s.data.map Char.toLower)

/-- `input.cart?.buyerIdentity?.customer` -/
def customerOf (input : FunctionInput) : Option Customer :=
  (input.cart.bind Cart.buyerIdentity).bind BuyerIdentity.customer

/-- `input.cart?.buyerIdentity?.purchasingCompany` -/
def purchasingCompanyOf (input : FunctionInput) : Option PurchasingCompany :=
  (input.cart.bind Cart.buyerIdentity).bind BuyerIdentity.purchasingCompany

/-- `input.cart?.lines || []` -/
def linesOf (input : FunctionInput) : List CartLine :=
  (input.cart.bind Cart.lines).getD []

/-- `input.cart?.deliveryGroups || []` -/
def deliveryGroupsOf (input : FunctionInput) : List DeliveryGroup :=
  (input.cart.bind Cart.deliveryGroups).getD []

/-- `isCustomerEligible`, byte-identical in the two variants: absent customer,
absent attribute, or any value other than exactly the string `"true"` fails. -/
def isCustomerEligible (customer : Option Customer) : Bool :=
  match customer with
  | none => false
  | some c =>
    let ccPilotEligible : Option JsVal := c.ccPilotEligible.map Metafield.value
    if ccPilotEligible ≠ some (JsVal.str "true") then false
    else true

namespace Base

/-- Base-variant target resolver: allow-list only
(`credit`, `card`, `visa`, `mastercard`), no deny-list. -/
def findCreditCardPaymentMethod (paymentMethods : Option (List PaymentMethod)) :
    Option PaymentMethod :=
  match paymentMethods with
  | none => none
  | some ms =>
    ms.find? fun method =>
      match method.name with
      | none => false
      | some nm =>
        if nm = "" then false
        else
          strIncludes (strToLower nm) "credit" ||
          strIncludes (strToLower nm) "card" ||
          strIncludes (strToLower nm) "visa" ||
          strIncludes (strToLower nm) "mastercard"

/-- Per-line loop of the base parcel check. Reading `__typename` of an absent
merchandise, or `requiresLtl` of an absent product, throws. Missing weight
falls through (`weight && weight > threshold` is falsy). -/
def parcelLineLoop : List CartLine → Except JsError Bool
  | [] => .ok true
  | line :: rest =>
    match line.merchandise with
    | none => .error (JsError.typeError "__typename")
    | some merchandise =>
      if merchandise.__typename ≠ "ProductVariant" then .ok false
      else
        match merchandise.product with
        | none => .error (JsError.typeError "requiresLtl")
        | some product =>
          if product.requiresLtl.map Metafield.value = some (JsVal.str "true") then .ok false
          else if product.isParcelEligible.map Metafield.value = some (JsVal.str "false") then
            .ok false
          else
            match merchandise.weight with
            | none => parcelLineLoop rest
            | some weight =>
              if weight ≠ 0 ∧ weight > PARCEL_WEIGHT_THRESHOLD_LBS then .ok false
              else parcelLineLoop rest

/-- Base-variant `isCartParcelEligible`. -/
def isCartParcelEligible (cartLines : Option (List CartLine)) : Except JsError Bool :=
  match cartLines with
  | none => .ok true
  | some ls =>
    if ls.length = 0 then .ok true
    else parcelLineLoop ls

/-- Base-variant main function: target resolver, then customer check, then
parcel check. -/
def cartPaymentMethodsTransformRun (input : FunctionInput) :
    Except JsError FunctionResult :=
  match findCreditCardPaymentMethod input.paymentMethods with
  | none => .ok NO_CHANGES
  | some ccPaymentMethod =>
    if ! isCustomerEligible (customerOf input) then .ok (hideResult ccPaymentMethod)
    else
      match isCartParcelEligible (some (linesOf input)) with
      | .error e => .error e
      | .ok parcelOk =>
        if ! parcelOk then .ok (hideResult ccPaymentMethod)
        else .ok NO_CHANGES

end Base

namespace Extended

/-- Extended-variant target resolver: deny-list first (any name containing
`gift`), then allow-list (`credit`, `bogus`, `stripe`). -/
def findCreditCardPaymentMethod (paymentMethods : Option (List PaymentMethod)) :
    Option PaymentMethod :=
  match paymentMethods with
  | none => none
  | some ms =>
    ms.find? fun method =>
      match method.name with
      | none => false
      | some nm =>
        if nm = "" then false
        else
          let nameLower := (strToLower nm)
          if strIncludes nameLower "gift" then false
          else
            strIncludes nameLower "credit" ||
            strIncludes nameLower "bogus" ||
            strIncludes nameLower "stripe"

/-- Extended-variant `isLocationEligible`: absent purchasing company passes
(B2C); otherwise absent location fails, and a present location's
`ccLocationEligible` attribute must be exactly the string `"true"`. -/
def isLocationEligible (purchasingCompany : Option PurchasingCompany) : Bool :=
  match purchasingCompany with
  | none => true
  | some pc =>
    match pc.location with
    | none => false
    | some location =>
      let ccLocationEligible : Option JsVal := location.ccLocationEligible.map Metafield.value
      if ccLocationEligible ≠ some (JsVal.str "true") then false
      else true

/-- Allowed shipping methods for CC payment. -/
def allowedMethods : List String := ["home delivery", "express saver"]

/-- Extended-variant `isShippingMethodEligible`. For each group with a
selected option, both title and handle are lowercased (with `|| ""` fallback),
but `isAllowed` is computed from the title alone, exactly as in the source. -/
def isShippingMethodEligible (deliveryGroups : Option (List DeliveryGroup)) : Bool :=
  match deliveryGroups with
  | none => true
  | some groups =>
    if groups.length = 0 then true
    else
      groups.all fun group =>
        match group.selectedDeliveryOption with
        | none => true
        | some selectedOption =>
          let title := (selectedOption.title.map strToLower).getD ""
          let _handle := (selectedOption.handle.map strToLower).getD ""
          allowedMethods.any fun method => strIncludes title method

/-- Per-line loop of the extended parcel check. Reading `__typename` of an
absent merchandise throws; a missing/zero weight and an over-threshold weight
both disqualify, but each of those branches interpolates `product.id` into
its log line first, which throws when `product` is absent. -/
def parcelLineLoop : List CartLine → Except JsError Bool
  | [] => .ok true
  | line :: rest =>
    match line.merchandise with
    | none => .error (JsError.typeError "__typename")
    | some merchandise =>
      if merchandise.__typename ≠ "ProductVariant" then .ok false
      else
        match merchandise.weight with
        | none =>
          match merchandise.product with
          | none => .error (JsError.typeError "id")
          | some _ => .ok false
        | some weight =>
          if weight = 0 then
            match merchandise.product with
            | none => .error (JsError.typeError "id")
            | some _ => .ok false
          else if weight > PARCEL_WEIGHT_THRESHOLD_LBS then
            match merchandise.product with
            | none => .error (JsError.typeError "id")
            | some _ => .ok false
          else parcelLineLoop rest

/-- Extended-variant `isCartParcelEligible`. -/
def isCartParcelEligible (cartLines : Option (List CartLine)) : Except JsError Bool :=
  match cartLines with
  | none => .ok true
  | some ls =>
    if ls.length = 0 then .ok true
    else parcelLineLoop ls

/-- Extended-variant main function: target resolver, then customer, location,
parcel and shipping checks, in that order, stopping at the first failure. -/
def cartPaymentMethodsTransformRun (input : FunctionInput) :
    Except JsError FunctionResult :=
  match findCreditCardPaymentMethod input.paymentMethods with
  | none => .ok NO_CHANGES
  | some ccPaymentMethod =>
    if ! isCustomerEligible (customerOf input) then .ok (hideResult ccPaymentMethod)
    else if ! isLocationEligible (purchasingCompanyOf input) then
      .ok (hideResult ccPaymentMethod)
    else
      match isCartParcelEligible (some (linesOf input)) with
      | .error e => .error e
      | .ok parcelOk =>
        if ! parcelOk then .ok (hideResult ccPaymentMethod)
        else if ! isShippingMethodEligible (some (deliveryGroupsOf input)) then
          .ok (hideResult ccPaymentMethod)
        else .ok NO_CHANGES

end Extended

/-- Claim C1, as stated, is false: the base-variant target resolver has no
deny-list, and with the list [Shop Gift Card, Visa Credit Card] it selects the
gift-card method (whose name contains both "gift" and the allow-list substring
"card") even though a true credit-card method appears later. -/
theorem C1_base_resolver_picks_gift_card :
    strIncludes (strToLower "Shop Gift Card") "gift" = true ∧
    strIncludes (strToLower "Shop Gift Card") "card" = true ∧
    strIncludes (strToLower "Visa Credit Card") "credit" = true ∧
    Base.findCreditCardPaymentMethod
        (some [⟨"pm_gift", some "Shop Gift Card"⟩, ⟨"pm_visa", some "Visa Credit Card"⟩]) =
      some ⟨"pm_gift", some "Shop Gift Card"⟩ :=
  ⟨rfl, rfl, rfl, rfl⟩

/-- Claim C1 (amended): only the extended-variant resolver carries the
deny-list. In the extended variant, for every payment-method list, whenever
the resolver selects a method, that method's lowercased name does not contain
"gift": the deny-list is checked before the allow-list for each candidate. -/
theorem C1_extended_resolver_never_picks_gift
    (paymentMethods : Option (List PaymentMethod)) (pm : PaymentMethod)
    (hfind : Extended.findCreditCardPaymentMethod paymentMethods = some pm)
    (nm : String) (hname : pm.name = some nm) :
    strIncludes (strToLower nm) "gift" = false := by
  cases paymentMethods with
  | none => simp [Extended.findCreditCardPaymentMethod] at hfind
  | some ms =>
    unfold Extended.findCreditCardPaymentMethod at hfind
    have hp := List.find?_some hfind
    simp only [hname] at hp
    by_cases he : nm = ""
    · simp [he] at hp
    · by_cases hg : strIncludes (strToLower nm) "gift" = true
      · simp [he, hg] at hp
      · simpa using hg

/-- Witness for C1 (amended): on the concrete list above, the extended
resolver selects the Visa method, whose lowercased name indeed does not
contain "gift". -/
theorem C1_extended_resolver_never_picks_gift_witness :
    strIncludes (strToLower "Visa Credit Card") "gift" = false :=
  C1_extended_resolver_never_picks_gift
    (some [⟨"pm_gift", some "Shop Gift Card"⟩, ⟨"pm_visa", some "Visa Credit Card"⟩])
    ⟨"pm_visa", some "Visa Credit Card"⟩ rfl "Visa Credit Card" rfl

/-- Claim C2, as stated, is false: a selected delivery option whose handle is
exactly the allow-list entry "home delivery" but whose title matches nothing
is rejected by the extended shipping check, because only the title is
matched. -/
theorem C2_handle_only_match_fails :
    strIncludes (strToLower "home delivery") "home delivery" = true ∧
    Extended.isShippingMethodEligible
        (some [⟨some ⟨some "Standard Shipping", some "home delivery"⟩⟩]) = false :=
  ⟨rfl, rfl⟩

/-- Claim C2 (amended): in the extended shipping check both the title and the
handle are lowercased, but the allow-list is matched against the title alone;
the handle never influences the result. For every group list the check equals
the title-only condition. -/
theorem C2_shipping_matches_title_only (groups : List DeliveryGroup) :
    Extended.isShippingMethodEligible (some groups) =
      groups.all fun group =>
        match group.selectedDeliveryOption with
        | none => true
        | some selectedOption =>
          Extended.allowedMethods.any fun method =>
            strIncludes ((selectedOption.title.map strToLower).getD "") method := by
  cases groups with
  | nil => rfl
  | cons g gs => rfl

/-- Claim C3: genuine weight-handling divergence. A single-line cart whose
line is a ProductVariant with product present, no LTL or parcel-eligibility
flags, and weight absent or exactly 0, passes the base parcel check and fails
the extended parcel check. -/
theorem C3_parcel_weight_divergence (pid : String) (w : Option Int)
    (hw : w = none ∨ w = some 0) :
    Base.isCartParcelEligible
        (some [⟨some ⟨"ProductVariant", w, some ⟨pid, none, none⟩⟩⟩]) = .ok true ∧
    Extended.isCartParcelEligible
        (some [⟨some ⟨"ProductVariant", w, some ⟨pid, none, none⟩⟩⟩]) = .ok false := by
  rcases hw with rfl | rfl
  · exact ⟨rfl, rfl⟩
  · exact ⟨rfl, rfl⟩

/-- Witness for C3: the divergence at the concrete line with product "p1" and
absent weight. -/
theorem C3_parcel_weight_divergence_witness :
    Base.isCartParcelEligible
        (some [⟨some ⟨"ProductVariant", none, some ⟨"p1", none, none⟩⟩⟩]) = .ok true ∧
    Extended.isCartParcelEligible
        (some [⟨some ⟨"ProductVariant", none, some ⟨"p1", none, none⟩⟩⟩]) = .ok false :=
  C3_parcel_weight_divergence "p1" none (Or.inl rfl)

/-- Claim C4: when no payment method matches the variant's own target pattern
(absent list included), that variant returns NoChange immediately, whatever
the rest of the input holds — even a cart whose lines would make the parcel
check throw. Each variant's conclusion depends only on its own resolver. -/
theorem C4_no_target_means_no_change (input : FunctionInput) :
    (Base.findCreditCardPaymentMethod input.paymentMethods = none →
      Base.cartPaymentMethodsTransformRun input = .ok NO_CHANGES) ∧
    (Extended.findCreditCardPaymentMethod input.paymentMethods = none →
      Extended.cartPaymentMethodsTransformRun input = .ok NO_CHANGES) := by
  refine ⟨fun hb => ?_, fun he => ?_⟩
  · unfold Base.cartPaymentMethodsTransformRun
    rw [hb]
  · unfold Extended.cartPaymentMethodsTransformRun
    rw [he]

/-- Witness for C4, at inputs where the two resolvers disagree: the base
resolver does not match "Bogus Gateway" (which the extended one would), and
the extended resolver does not match "Visa" (which the base one would). -/
theorem C4_no_target_means_no_change_witness :
    Base.cartPaymentMethodsTransformRun ⟨some [⟨"pm1", some "Bogus Gateway"⟩], none⟩ =
      .ok NO_CHANGES ∧
    Extended.cartPaymentMethodsTransformRun ⟨some [⟨"pm1", some "Visa"⟩], none⟩ =
      .ok NO_CHANGES :=
  ⟨(C4_no_target_means_no_change ⟨some [⟨"pm1", some "Bogus Gateway"⟩], none⟩).1 rfl,
   (C4_no_target_means_no_change ⟨some [⟨"pm1", some "Visa"⟩], none⟩).2 rfl⟩

/-- Claim C5: whenever either variant returns a result document, its
operations list is either empty or the singleton hide operation carrying the
id of the payment method selected by the target resolver. -/
theorem C5_at_most_one_operation (input : FunctionInput) :
    (∀ r, Base.cartPaymentMethodsTransformRun input = .ok r →
      r.operations = [] ∨
        ∃ pm, Base.findCreditCardPaymentMethod input.paymentMethods = some pm ∧
          r.operations = [⟨⟨pm.id⟩⟩]) ∧
    (∀ r, Extended.cartPaymentMethodsTransformRun input = .ok r →
      r.operations = [] ∨
        ∃ pm, Extended.findCreditCardPaymentMethod input.paymentMethods = some pm ∧
          r.operations = [⟨⟨pm.id⟩⟩]) := by
  constructor
  · intro r h
    unfold Base.cartPaymentMethodsTransformRun at h
    cases hfind : Base.findCreditCardPaymentMethod input.paymentMethods with
    | none =>
      simp only [hfind] at h
      injection h with h
      subst h
      exact Or.inl rfl
    | some pm =>
      simp only [hfind] at h
      cases hc : isCustomerEligible (customerOf input) with
      | false =>
        simp [hc] at h
        subst h
        exact Or.inr ⟨pm, rfl, rfl⟩
      | true =>
        simp only [hc, Bool.not_true, Bool.false_eq_true, if_false] at h
        cases hp : Base.isCartParcelEligible (some (linesOf input)) with
        | error e => simp [hp] at h
        | ok b =>
          simp only [hp] at h
          cases b
          · simp at h
            subst h
            exact Or.inr ⟨pm, rfl, rfl⟩
          · simp at h
            subst h
            exact Or.inl rfl
  · intro r h
    unfold Extended.cartPaymentMethodsTransformRun at h
    cases hfind : Extended.findCreditCardPaymentMethod input.paymentMethods with
    | none =>
      simp only [hfind] at h
      injection h with h
      subst h
      exact Or.inl rfl
    | some pm =>
      simp only [hfind] at h
      cases hc : isCustomerEligible (customerOf input) with
      | false =>
        simp [hc] at h
        subst h
        exact Or.inr ⟨pm, rfl, rfl⟩
      | true =>
        simp only [hc, Bool.not_true, Bool.false_eq_true, if_false] at h
        cases hl : Extended.isLocationEligible (purchasingCompanyOf input) with
        | false =>
          simp [hl] at h
          subst h
          exact Or.inr ⟨pm, rfl, rfl⟩
        | true =>
          simp only [hl, Bool.not_true, Bool.false_eq_true, if_false] at h
          cases hp : Extended.isCartParcelEligible (some (linesOf input)) with
          | error e => simp [hp] at h
          | ok b =>
            simp only [hp] at h
            cases b
            · simp at h
              subst h
              exact Or.inr ⟨pm, rfl, rfl⟩
            · simp only [Bool.not_true, Bool.false_eq_true, if_false] at h
              cases hs : Extended.isShippingMethodEligible (some (deliveryGroupsOf input)) with
              | false =>
                simp [hs] at h
                subst h
                exact Or.inr ⟨pm, rfl, rfl⟩
              | true =>
                simp [hs] at h
                subst h
                exact Or.inl rfl

/-- Witness for C5: a concrete hide result (customer absent) in each variant. -/
theorem C5_at_most_one_operation_witness :
    ((⟨[⟨⟨"pm1"⟩⟩]⟩ : FunctionResult).operations = [] ∨
      ∃ pm, Base.findCreditCardPaymentMethod (some [⟨"pm1", some "Visa Credit Card"⟩]) = some pm ∧
        (⟨[⟨⟨"pm1"⟩⟩]⟩ : FunctionResult).operations = [⟨⟨pm.id⟩⟩]) ∧
    ((⟨[⟨⟨"pm1"⟩⟩]⟩ : FunctionResult).operations = [] ∨
      ∃ pm, Extended.findCreditCardPaymentMethod (some [⟨"pm1", some "Visa Credit Card"⟩]) = some pm ∧
        (⟨[⟨⟨"pm1"⟩⟩]⟩ : FunctionResult).operations = [⟨⟨pm.id⟩⟩]) :=
  ⟨(C5_at_most_one_operation ⟨some [⟨"pm1", some "Visa Credit Card"⟩], none⟩).1 ⟨[⟨⟨"pm1"⟩⟩]⟩ rfl,
   (C5_at_most_one_operation ⟨some [⟨"pm1", some "Visa Credit Card"⟩], none⟩).2 ⟨[⟨⟨"pm1"⟩⟩]⟩ rfl⟩

/-- Claim C6: the customer check passes exactly when the customer is present,
the pilot attribute is present, and its value is exactly the string "true"
under strict equality; any other scalar (other strings, numbers, booleans,
null) or any absence yields false. -/
theorem C6_customer_eligibility_strict (customer : Option Customer) :
    isCustomerEligible customer = true ↔
      (customer.bind Customer.ccPilotEligible).map Metafield.value =
        some (JsVal.str "true") := by
  cases customer with
  | none => simp [isCustomerEligible]
  | some c =>
    cases hmf : c.ccPilotEligible with
    | none => simp [isCustomerEligible, hmf]
    | some mf =>
      by_cases hv : mf.value = JsVal.str "true" <;>
        simp [isCustomerEligible, hmf, hv]

/-- Claim C7: the location check passes unconditionally for an absent
purchasing company (B2C); for a present one it passes exactly when a location
is present whose ccLocationEligible attribute value is exactly the string
"true" — so company absence defaults to pass, location/attribute absence to
deny. -/
theorem C7_location_eligibility_asymmetry (purchasingCompany : Option PurchasingCompany) :
    Extended.isLocationEligible purchasingCompany = true ↔
      (purchasingCompany = none ∨
        ((purchasingCompany.bind PurchasingCompany.location).bind
            CompanyLocation.ccLocationEligible).map Metafield.value =
          some (JsVal.str "true")) := by
  cases purchasingCompany with
  | none => simp [Extended.isLocationEligible]
  | some pc =>
    cases hloc : pc.location with
    | none => simp [Extended.isLocationEligible, hloc]
    | some loc =>
      cases hmf : loc.ccLocationEligible with
      | none => simp [Extended.isLocationEligible, hloc, hmf]
      | some mf =>
        by_cases hv : mf.value = JsVal.str "true" <;>
          simp [Extended.isLocationEligible, hloc, hmf, hv]

/-- Claim C8: in both variants, a ProductVariant line with product present
(and no freight flags, which the base variant consults) passes the parcel
check at weight exactly 150 = PARCEL_WEIGHT_THRESHOLD_LBS and fails at 151:
the threshold comparison is strict greater-than. -/
theorem C8_weight_threshold_strict (pid : String) :
    PARCEL_WEIGHT_THRESHOLD_LBS = 150 ∧
    Base.isCartParcelEligible
        (some [⟨some ⟨"ProductVariant", some 150, some ⟨pid, none, none⟩⟩⟩]) = .ok true ∧
    Base.isCartParcelEligible
        (some [⟨some ⟨"ProductVariant", some 151, some ⟨pid, none, none⟩⟩⟩]) = .ok false ∧
    Extended.isCartParcelEligible
        (some [⟨some ⟨"ProductVariant", some 150, some ⟨pid, none, none⟩⟩⟩]) = .ok true ∧
    Extended.isCartParcelEligible
        (some [⟨some ⟨"ProductVariant", some 151, some ⟨pid, none, none⟩⟩⟩]) = .ok false :=
  ⟨rfl, rfl, rfl, rfl, rfl⟩

/-- Claim C9: when a target is found and the customer check fails, both
variants return the hide operation for the target's id, whatever the
purchasing company, cart lines, and delivery groups hold: evaluation stops at
the customer check. -/
theorem C9_customer_failure_short_circuits (input : FunctionInput) (pm : PaymentMethod)
    (hc : isCustomerEligible (customerOf input) = false) :
    (Base.findCreditCardPaymentMethod input.paymentMethods = some pm →
      Base.cartPaymentMethodsTransformRun input = .ok (hideResult pm)) ∧
    (Extended.findCreditCardPaymentMethod input.paymentMethods = some pm →
      Extended.cartPaymentMethodsTransformRun input = .ok (hideResult pm)) := by
  refine ⟨fun hfind => ?_, fun hfind => ?_⟩
  · unfold Base.cartPaymentMethodsTransformRun
    simp [hfind, hc]
  · unfold Extended.cartPaymentMethodsTransformRun
    simp [hfind, hc]

/-- Witness for C9: customer entirely absent, target found. -/
theorem C9_customer_failure_short_circuits_witness :
    Base.cartPaymentMethodsTransformRun ⟨some [⟨"pm1", some "Visa Credit Card"⟩], none⟩ =
      .ok (hideResult ⟨"pm1", some "Visa Credit Card"⟩) ∧
    Extended.cartPaymentMethodsTransformRun ⟨some [⟨"pm1", some "Visa Credit Card"⟩], none⟩ =
      .ok (hideResult ⟨"pm1", some "Visa Credit Card"⟩) :=
  ⟨(C9_customer_failure_short_circuits ⟨some [⟨"pm1", some "Visa Credit Card"⟩], none⟩
      ⟨"pm1", some "Visa Credit Card"⟩ rfl).1 rfl,
   (C9_customer_failure_short_circuits ⟨some [⟨"pm1", some "Visa Credit Card"⟩], none⟩
      ⟨"pm1", some "Visa Credit Card"⟩ rfl).2 rfl⟩

/-- Claim C10: the parcel check is not total over malformed lines. With a
found target and passing customer (and, in the extended variant, location)
checks, a line with absent merchandise makes both variants throw a TypeError
reading __typename; and in the extended variant a ProductVariant line with
absent product and absent weight throws reading product.id while the
disqualification log message is built. -/
theorem C10_parcel_check_not_total :
    Base.cartPaymentMethodsTransformRun
        ⟨some [⟨"pm1", some "Visa Credit Card"⟩],
         some ⟨some ⟨some ⟨some ⟨JsVal.str "true"⟩⟩, none⟩, some [⟨none⟩], some []⟩⟩ =
      .error (JsError.typeError "__typename") ∧
    Extended.cartPaymentMethodsTransformRun
        ⟨some [⟨"pm1", some "Visa Credit Card"⟩],
         some ⟨some ⟨some ⟨some ⟨JsVal.str "true"⟩⟩, none⟩, some [⟨none⟩], some []⟩⟩ =
      .error (JsError.typeError "__typename") ∧
    Extended.cartPaymentMethodsTransformRun
        ⟨some [⟨"pm1", some "Visa Credit Card"⟩],
         some ⟨some ⟨some ⟨some ⟨JsVal.str "true"⟩⟩, none⟩,
               some [⟨some ⟨"ProductVariant", none, none⟩⟩], some []⟩⟩ =
      .error (JsError.typeError "id") :=
  ⟨rfl, rfl, rfl⟩
